import Mathlib

/-!
Verification development for the `synthetic_coordinates` repository
(`deepergcn_smp`).  The definitions below are a shallow embedding of

  * `seml_scripts/graph_clsreg.py` — degree-histogram computation
    (`get_deg_hist`), the transform composition (`ComposeCustom`), and the
    configuration-dispatch logic of `run` (transform pipeline construction,
    model selection, and the `DeeperGCN` constructor call), and
  * `icgnn/models/deepergcn/deepergcn.py` — the `DeeperGCN` module
    (`__init__` pooling choice, `forward`).

Tensors are modelled as lists of rationals, machine exceptions as
`Except`/`Option` values, and Python `print` output as an explicit log.
External library layers (GENConv, normalization layers, encoders) are
abstract pure functions: the spec records that data samples are
"consumed read-only during training", and none of these library calls
mutates its input in the embedded fragment.
-/

/-! ## Degree histogram (`graph_clsreg.get_deg_hist`, lines 131-148) -/

/-- The fields of a PyG data object that `get_deg_hist` touches.
`x` and `x_g` are only inspected through their shapes, so they are kept as
shapes `(rows, cols)`; `edge_index` / `edge_index_lg` are kept as the two
index rows.  A `none` field models a missing / `None` attribute, whose
access raises inside the corresponding `try`. -/
structure GraphData where
  x : Option (Nat × Nat)
  edge_index : Option (List Nat × List Nat)
  x_g : Option (Nat × Nat)
  edge_index_lg : Option (List Nat × List Nat)

/-- `torch_geometric.utils.degree(index, num_nodes, dtype=long)`:
scatter-add of ones into a zero vector of length `num_nodes`.  An index
entry that is out of bounds raises a RuntimeError, modelled as `.error`. -/
def pyg_degree (index : List Nat) (numNodes : Nat) : Except Unit (List Nat) :=
  if index.all (· < numNodes) then
    .ok ((List.range numNodes).map (fun n => index.count n))
  else
    .error ()

/-- `torch.bincount(d, minlength)`: counts of each value `0 ≤ v < len`
where `len = max(minlength, d.max() + 1)` (just `minlength` when `d` is
empty). -/
def bincount (d : List Nat) (minlength : Nat) : List Nat :=
  let len := max minlength (match d with | [] => 0 | _ => d.foldl max 0 + 1)
  (List.range len).map (fun v => d.count v)

/-- The inner `try`/`except` of `get_deg_hist`: degree of the graph's
target-index row with `num_nodes = data.x.shape[0]`, falling back to the
line-graph fields `edge_index_lg` / `x_g.shape[1]` when anything in the
primary computation raises. -/
def graph_deg (g : GraphData) : Except Unit (List Nat) :=
  let primary : Except Unit (List Nat) :=
    match g.edge_index, g.x with
    | some ei, some xshape => pyg_degree ei.2 xshape.1
    | _, _ => .error ()
  match primary with
  | .ok d => .ok d
  | .error _ =>
    match g.edge_index_lg, g.x_g with
    | some ei, some xgshape => pyg_degree ei.2 xgshape.2
    | _, _ => .error ()

/-- One iteration of the loop body of `get_deg_hist` under the outer
`try`: compute the degree vector, then `deg += torch.bincount(d,
minlength=minlen)`.  The in-place add requires the bincount to have the
accumulator's size (`minlength` forces its length to be at least `minlen`,
so no other broadcast shape is possible); a mismatch raises, leaving `deg`
unchanged. -/
def accumGraph (minlen : Nat) (deg : List Nat) (g : GraphData) :
    Except Unit (List Nat) :=
  match graph_deg g with
  | .error _ => .error ()
  | .ok d =>
    let bc := bincount d minlen
    if bc.length = deg.length then .ok (List.zipWith (· + ·) deg bc)
    else .error ()

/-- The warning printed by the outer `except` branch of `get_deg_hist`. -/
def invalidGraphMsg : String := "Invalid graph, skip during degree count"

/-- `get_deg_hist(train_list)` together with its printed warnings:
start from `torch.zeros(10)`, and for each graph either accumulate its
bincount or (on any exception) print the warning and skip the graph. -/
def get_deg_hist_run (train_list : List GraphData) : List Nat × List String :=
  let deg : List Nat := List.replicate 10 0
  let minlen := deg.length
  train_list.foldl
    (fun s data =>
      match accumGraph minlen s.1 data with
      | .ok d2 => (d2, s.2)
      | .error _ => (s.1, s.2 ++ [invalidGraphMsg]))
    (deg, [])

/-- The returned histogram of `get_deg_hist`. -/
def get_deg_hist (train_list : List GraphData) : List Nat :=
  (get_deg_hist_run train_list).1

/-- Per-graph contribution to the histogram: the bincount the graph adds
when every step succeeds, `none` when the graph is skipped. -/
def graphBincount (g : GraphData) : Option (List Nat) :=
  match graph_deg g with
  | .error _ => none
  | .ok d =>
    let bc := bincount d 10
    if bc.length = 10 then some bc else none

/-! ## `ComposeCustom` (`graph_clsreg.py`, lines 150-159) -/

/-- `ComposeCustom`: composes several transforms together. -/
structure ComposeCustom (α : Type _) where
  transforms : List (α → α)

/-- `ComposeCustom.__call__`: fold the data through the transforms in
list order. -/
def ComposeCustom.call {α : Type _} (c : ComposeCustom α) (data : α) : α :=
  c.transforms.foldl (fun d t => t d) data

/-! ## Configuration dispatch of `run` (`graph_clsreg.py`, lines 161-288, 405-460) -/

/-- The configuration fields that drive the transform pipeline and model
selection in `run`.  `add_rdkit_dist` is either `False` (`none`) or a
string naming the distance kind (`some kind`; the empty string is falsy in
Python and therefore disables the feature). -/
structure RunConfig where
  dataset_name : String
  model : String
  add_ppr_dist : Bool
  add_rdkit_dist : Option String
  linegraph_dist : Bool
  linegraph_angle : Bool
deriving DecidableEq

/-- Python truthiness of the `add_rdkit_dist` config value. -/
def pyTruthyStr : Option String → Bool
  | none => false
  | some s => s != ""

/-- Is any distance feature enabled (`add_ppr_dist or add_rdkit_dist`)? -/
def distance_enabled (c : RunConfig) : Bool :=
  c.add_ppr_dist || pyTruthyStr c.add_rdkit_dist

/-- The `mapping` dict of rdkit distance transforms (lines 222-234),
as an association list from config key to transform class name
(constructor arguments are elided; the pipeline is tracked by transform
names). -/
def rdkit_dist_mapping : List (String × String) :=
  [("distance_matrix", "Set_Distance_Matrix"),
   ("3d_coord", "Set_3DCoord_Distance"),
   ("2d_coord", "Set_2DCoord_Distance"),
   ("pharm3d", "Set_Pharm3D_Distance"),
   ("bounds_matrix_upper", "Set_BoundsMatUpper_Distance"),
   ("bounds_matrix_lower", "Set_BoundsMatLower_Distance"),
   ("bounds_matrix_both", "Set_BoundsMatBoth_Distance")]

/-- The seven supported rdkit distance kinds (the keys of `mapping`). -/
def rdkit_dist_kinds : List String := rdkit_dist_mapping.map Prod.fst

/-- Does `pat` occur as a contiguous run inside the second list? -/
def listHasRun (pat : List Char) : List Char → Bool
  | [] => pat.isEmpty
  | c :: rest => pat.isPrefixOf (c :: rest) || listHasRun pat rest

/-- `'ogb' in dataset_name` (substring test). -/
def containsOgb (s : String) : Bool := listHasRun "ogb".toList s.toList

/-- The graph-to-mol transform appended before the rdkit distance
transform (lines 213-218). -/
def mol_transforms (c : RunConfig) : List String :=
  if containsOgb c.dataset_name then ["Graph_To_Mol"]
  else if c.dataset_name = "ZINC" then ["ZINC_Graph_To_Mol"]
  else if c.dataset_name = "QM9" then ["QM9_Graph_To_Mol"]
  else []

/-- The error `run` raises on unsupported configuration combinations. -/
inductive RunError where
  | notImplemented
deriving DecidableEq

/-- The distance-feature head of the transform pipeline of `run` (lines
206-242): PPR distance, graph-to-mol conversion, and the rdkit distance
transform, or `NotImplementedError` when `add_rdkit_dist` is truthy and
not one of the seven supported kinds (line 242). -/
def run_transforms_head (c : RunConfig) : Except RunError (List String) :=
  let ts : List String := if c.add_ppr_dist then ["Set_PPR_Distance"] else []
  match c.add_rdkit_dist with
  | none => .ok ts
  | some kind =>
    if kind = "" then .ok ts
    else
      let ts := ts ++ mol_transforms c
      match List.lookup kind rdkit_dist_mapping with
      | some t => .ok (ts ++ [t, "Set_Edge_Dist"])
      | none => .error RunError.notImplemented

/-- The rest of the transform pipeline of `run` (lines 244-288): basis
finalization, distance placement (line-graph node attributes or graph
edge attributes), line-graph edge attributes (angle or constant),
distance cleanup, and the QM9 target filter. -/
def run_transforms_tail (c : RunConfig) (ts0 : List String) : List String :=
  let ts := if distance_enabled c then ts0 ++ ["Finalize_Dist_Basis"] else ts0
  let ts :=
    if distance_enabled c then
      if c.linegraph_dist then
        ts ++ ["Add_Linegraph", "Set_Linegraph_NodeAttr_Distance"]
      else
        ts ++ ["Set_Graph_EdgeAttr_Distance"]
    else ts
  let ts :=
    if c.linegraph_dist then
      if c.linegraph_angle then ts ++ ["Set_Linegraph_EdgeAttr_Angle"]
      else ts ++ ["Set_Linegraph_EdgeAttr"]
    else ts
  let ts := ts ++ ["Remove_Distances"]
  if c.dataset_name = "QM9" then ts ++ ["RemoveTargets"] else ts

/-- The transform pipeline built by `run` (lines 205-288), by transform
class name, or the `NotImplementedError` it raises. -/
def run_build_transforms (c : RunConfig) : Except RunError (List String) :=
  match run_transforms_head c with
  | .error e => .error e
  | .ok ts => .ok (run_transforms_tail c ts)

/-- The model-selection dispatch of `run` (lines 405-460): the name of the
constructed model class, or `NotImplementedError` when `model` is neither
`'deepergcn'` nor `'smp'` (line 460). -/
def run_select_model (c : RunConfig) : Except RunError String :=
  if c.model = "deepergcn" then
    .ok (if c.linegraph_dist then "DeeperGCN_LineGraph" else "DeeperGCN")
  else if c.model = "smp" then
    .ok (if c.linegraph_dist then "SMP_LineGraph" else "SMP")
  else .error RunError.notImplemented

/-! ## Python call binding for the `DeeperGCN(...)` call (lines 423-434) -/

/-- TypeError conditions of binding a Python call against a plain
parameter list (no `*args`/`**kwargs`). -/
inductive PyCallError where
  | tooManyPositional
  | unexpectedKeyword (k : String)
  | multipleValues (k : String)
  | missingArgument (k : String)
deriving DecidableEq

/-- First keyword-binding error, scanning keyword arguments in call
order: a keyword that names no parameter is unexpected, one whose
parameter is already bound positionally got multiple values. -/
def kwBindError (params : List String) (npos : Nat) : List String → Option PyCallError
  | [] => none
  | k :: rest =>
    if k ∉ params then some (.unexpectedKeyword k)
    else if params.indexOf k < npos then some (.multipleValues k)
    else kwBindError params npos rest

/-- Bind a call with `npos` positional arguments and keyword arguments
`kwargs` against the parameters `params`, of which `required` have no
default.  Returns `()` when binding succeeds and the `TypeError` reason
otherwise. -/
def bindPyCall (params required : List String) (npos : Nat)
    (kwargs : List String) : Except PyCallError Unit :=
  if params.length < npos then .error .tooManyPositional
  else
    match kwBindError params npos kwargs with
    | some e => .error e
    | none =>
      match required.find? (fun r => !(params.indexOf r < npos) && r ∉ kwargs) with
      | some r => .error (.missingArgument r)
      | none => .ok ()

/-- The parameters of `DeeperGCN.__init__` (deepergcn.py lines 11-39), in
order, `self` excluded.  Only `num_tasks` has no default. -/
def DeeperGCN_init_params : List String :=
  ["num_tasks", "num_layers", "dropout", "conv_encode_edge",
   "hidden_channels", "gcn_aggr", "learn_t", "t", "learn_p", "p",
   "msg_norm", "learn_msg_scale", "norm", "mlp_layers", "graph_pooling",
   "node_feat_dim", "edge_feat_dim", "mol_data", "mlp_act",
   "emb_basis_global", "emb_basis_local", "emb_bottleneck"]

/-- The config variables `run` passes positionally to `DeeperGCN(...)`
(graph_clsreg.py lines 423-427), in call order. -/
def run_DeeperGCN_call_positional : List String :=
  ["num_tasks", "num_layers", "dropout", "block", "conv_encode_edge",
   "add_virtual_node", "hidden_channels", "conv", "gcn_aggr", "learn_t",
   "t", "learn_p", "p", "msg_norm", "learn_msg_scale", "norm",
   "mlp_layers", "graph_pooling"]

/-- The keyword arguments `run` passes to `DeeperGCN(...)` (lines
428-433), in call order. -/
def run_DeeperGCN_call_kwargs : List String :=
  ["node_feat_dim", "edge_feat_dim", "mol_data", "code_data",
   "node_encoder", "emb_product", "mlp_act", "emb_use_both", "deg_hist"]

/-- The binding outcome of the `model = DeeperGCN(...)` call in `run`. -/
def run_DeeperGCN_call_binding : Except PyCallError Unit :=
  bindPyCall DeeperGCN_init_params ["num_tasks"]
    run_DeeperGCN_call_positional.length run_DeeperGCN_call_kwargs

/-! ## `DeeperGCN` (`icgnn/models/deepergcn/deepergcn.py`) -/

/-- A dense 2-D tensor as a list of rows of rationals. -/
abbrev Mat := List (List ℚ)

/-- Componentwise sum of two rows. -/
def addRowQ (a b : List ℚ) : List ℚ := List.zipWith (· + ·) a b

/-- Componentwise maximum of two rows. -/
def maxRowQ (a b : List ℚ) : List ℚ := List.zipWith max a b

/-- A zero row of the given width. -/
def zeroRow (c : Nat) : List ℚ := List.replicate c 0

/-- The column count of a matrix (width of its first row). -/
def matCols (x : Mat) : Nat := (x.headD []).length

/-- The number of graphs PyG pooling derives from a batch-assignment
vector: `batch.max() + 1`. -/
def pygNumGraphs (batch : List Nat) : Nat := batch.foldl max 0 + 1

/-- The rows of `x` that belong to graph `g` according to the
batch-assignment vector. -/
def graphRows (x : Mat) (batch : List Nat) (g : Nat) : Mat :=
  (List.zip batch x).filterMap (fun p => if p.1 = g then some p.2 else none)

/-- `torch_geometric.nn.global_add_pool`: per-graph sum of node rows. -/
def global_add_pool (x : Mat) (batch : List Nat) : Mat :=
  (List.range (pygNumGraphs batch)).map fun g =>
    (graphRows x batch g).foldl addRowQ (zeroRow (matCols x))

/-- `torch_geometric.nn.global_mean_pool`: per-graph mean of node rows. -/
def global_mean_pool (x : Mat) (batch : List Nat) : Mat :=
  (List.range (pygNumGraphs batch)).map fun g =>
    let rows := graphRows x batch g
    let s := rows.foldl addRowQ (zeroRow (matCols x))
    if rows.length = 0 then s else s.map (· / (rows.length : ℚ))

/-- `torch_geometric.nn.global_max_pool`: per-graph componentwise maximum
of node rows (a graph with no node gets the scatter fill row). -/
def global_max_pool (x : Mat) (batch : List Nat) : Mat :=
  (List.range (pygNumGraphs batch)).map fun g =>
    match graphRows x batch g with
    | [] => zeroRow (matCols x)
    | r :: rs => rs.foldl maxRowQ r

/-- Dot product of two rows. -/
def dotQ (a b : List ℚ) : ℚ := (List.zipWith (· * ·) a b).sum

/-- `torch.nn.Linear` applied to a matrix of rows: each input row is
mapped to the row of its dot products with the weight rows, plus bias. -/
def linearApply (W : Mat) (bias : List ℚ) (x : Mat) : Mat :=
  x.map fun row => List.zipWith (fun wrow bj => dotQ row wrow + bj) W bias

/-- The error of `DeeperGCN.__init__` when `graph_pooling` misses the
pooling dict. -/
inductive InitError where
  | keyError (k : String)
deriving DecidableEq

/-- The pooling-dict lookup of `DeeperGCN.__init__` (lines 112-116):
`self.pool = {"sum": global_add_pool, "mean": global_mean_pool,
"max": global_max_pool}[graph_pooling]`; a key outside the dict raises
`KeyError`. -/
def DeeperGCN_select_pool (graph_pooling : String) :
    Except InitError (Mat → List Nat → Mat) :=
  if graph_pooling = "sum" then .ok global_add_pool
  else if graph_pooling = "mean" then .ok global_mean_pool
  else if graph_pooling = "max" then .ok global_max_pool
  else .error (InitError.keyError graph_pooling)

/-- The batch of data objects `forward` receives: the fields it reads. -/
structure Batch (X A I B : Type _) where
  x : X
  edge_index : I
  edge_attr : A
  batch : B

/-- The `DeeperGCN` module state, polymorphic in the tensor types
(`X` input node features, `A` raw edge attributes, `I` edge index, `B`
batch vector, `H` hidden node representations, `E` edge embeddings, `G`
pooled graph representations, `P` predictions).  The submodules
(`atom_encoder`, `gcns`, `norms`, ...) and the library functions `F.relu`,
`F.dropout` (with the module's `p` and training flag folded in) and the
tensor addition of the residual connection are abstract pure functions:
they build new tensors, and the spec fixes samples as read-only. -/
structure DeeperGCN (X A I B H E G P : Type _) where
  num_layers : Nat
  mol_data : Bool
  atom_encoder : X → H
  node_features_encoder : X → H
  edge_attr_initial : A → E
  global_emb_edge_attr : E → E
  gcns : Nat → H → I → E → H
  norms : Nat → H → H
  relu : H → H
  dropout : H → H
  hAdd : H → H → H
  pool : H → B → G
  graph_pred_linear : G → P

/-- One call event of `DeeperGCN.forward`, recorded in source order. -/
inductive DGCall where
  | atomEncoder
  | nodeFeaturesEncoder
  | edgeAttrInitial
  | globalEmbEdgeAttr
  | gcn (i : Nat)
  | norm (i : Nat)
  | relu
  | dropout
  | pool
  | predLinear
deriving DecidableEq

variable {X A I B H E G P : Type _}

/-- The body of `for layer in range(1, self.num_layers)` (lines 139-146):
`norms[layer-1]`, `F.relu`, `F.dropout`, `gcns[layer]`, residual add;
the second component logs the calls made. -/
def DeeperGCN.layerStep (m : DeeperGCN X A I B H E G P) (ei : I) (ee : E)
    (s : H × List DGCall) (layer : Nat) : H × List DGCall :=
  let h1 := m.norms (layer - 1) s.1
  let h2 := m.relu h1
  let h2d := m.dropout h2
  let hg := m.gcns layer h2d ei ee
  (m.hAdd hg s.1,
   s.2 ++ [DGCall.norm (layer - 1), DGCall.relu, DGCall.dropout, DGCall.gcn layer])

/-- The loop `for layer in range(1, self.num_layers)`: `forwardLoop ei ee
s n` runs the body for `layer = 1, ..., n` in order (`n = num_layers - 1`
matches `range(1, num_layers)`). -/
def DeeperGCN.forwardLoop (m : DeeperGCN X A I B H E G P) (ei : I) (ee : E)
    (s : H × List DGCall) : Nat → H × List DGCall
  | 0 => s
  | n + 1 => m.layerStep ei ee (m.forwardLoop ei ee s n) (n + 1)

/-- `DeeperGCN.forward(input_batch)` (lines 120-154), statement by
statement, returning the prediction together with the batch object as the
call leaves it and the log of submodule/library calls made. -/
def DeeperGCN.forwardT (m : DeeperGCN X A I B H E G P) (b : Batch X A I B) :
    P × (Batch X A I B × List DGCall) :=
  let h0 := if m.mol_data then m.atom_encoder b.x else m.node_features_encoder b.x
  let l0 := if m.mol_data then [DGCall.atomEncoder] else [DGCall.nodeFeaturesEncoder]
  let ee1 := m.edge_attr_initial b.edge_attr
  let ee := m.global_emb_edge_attr ee1
  let l1 := l0 ++ [DGCall.edgeAttrInitial, DGCall.globalEmbEdgeAttr]
  let h1 := m.gcns 0 h0 b.edge_index ee
  let l2 := l1 ++ [DGCall.gcn 0]
  let s := m.forwardLoop b.edge_index ee (h1, l2) (m.num_layers - 1)
  let hN := m.norms (m.num_layers - 1) s.1
  let hD := m.dropout hN
  let l3 := s.2 ++ [DGCall.norm (m.num_layers - 1), DGCall.dropout]
  let hg := m.pool hD b.batch
  let out := m.graph_pred_linear hg
  (out, (b, l3 ++ [DGCall.pool, DGCall.predLinear]))

/-- The return value of `DeeperGCN.forward`. -/
def DeeperGCN.forward (m : DeeperGCN X A I B H E G P) (b : Batch X A I B) : P :=
  (m.forwardT b).1

/-- The input batch as `forward` leaves it. -/
def DeeperGCN.forwardBatch (m : DeeperGCN X A I B H E G P)
    (b : Batch X A I B) : Batch X A I B :=
  (m.forwardT b).2.1

/-- The calls `forward` makes, in order. -/
def DeeperGCN.forwardCalls (m : DeeperGCN X A I B H E G P)
    (b : Batch X A I B) : List DGCall :=
  (m.forwardT b).2.2

/-- The encoding of the input node features (lines 125-129). -/
def DeeperGCN.encodedInput (m : DeeperGCN X A I B H E G P)
    (b : Batch X A I B) : H :=
  if m.mol_data then m.atom_encoder b.x else m.node_features_encoder b.x

/-- The edge embedding used by every layer (lines 132-134). -/
def DeeperGCN.edgeEmb (m : DeeperGCN X A I B H E G P) (b : Batch X A I B) : E :=
  m.global_emb_edge_attr (m.edge_attr_initial b.edge_attr)

/-- The running node representation after layer `k` (0-based), as the
specification describes it: layer 0 applied directly to the encoded node
features; each later layer applied to the normalized, rectified,
dropped-out running representation and added back as a residual. -/
def DeeperGCN.runningRep (m : DeeperGCN X A I B H E G P)
    (b : Batch X A I B) : Nat → H
  | 0 => m.gcns 0 (m.encodedInput b) b.edge_index (m.edgeEmb b)
  | k + 1 =>
    let h := m.runningRep b k
    m.hAdd (m.gcns (k + 1) (m.dropout (m.relu (m.norms k h))) b.edge_index
            (m.edgeEmb b)) h

/-! ## Concrete instances used to evaluate the development -/

/-- A graph with a single node of in-degree 10 (ten parallel self-loop
target entries). -/
def badGraph : GraphData :=
  ⟨some (1, 1),
   some (([0, 0, 0, 0, 0, 0, 0, 0, 0, 0] : List Nat),
         ([0, 0, 0, 0, 0, 0, 0, 0, 0, 0] : List Nat)),
   none, none⟩

/-- A configuration with an unsupported rdkit distance kind and an
unsupported model name. -/
def badCfg : RunConfig := ⟨"ZINC", "dimenet", false, some "foo", false, false⟩

/-- A line-graph configuration with PPR distance enabled. -/
def lgCfg : RunConfig := ⟨"ZINC", "deepergcn", true, none, true, false⟩

/-- A graph-edge configuration with PPR distance enabled. -/
def geCfg : RunConfig := ⟨"ZINC", "deepergcn", true, none, false, false⟩

/-- A concrete prediction-head weight matrix (3 tasks, hidden width 2). -/
def cW : Mat := [[1, 0], [0, 1], [1, 1]]

/-- A concrete prediction-head bias. -/
def cBias : List ℚ := [0, 0, 0]

/-- A concrete `DeeperGCN` instance over `Mat` tensors: 2 layers,
molecular data, identity submodules, sum pooling, and the `cW`/`cBias`
prediction head. -/
def cModel : DeeperGCN Mat Mat (List Nat × List Nat) (List Nat) Mat Mat Mat Mat :=
  ⟨2, true, id, id, id, id, fun _ h _ _ => h, fun _ h => h, id, id,
   fun a _ => a, global_add_pool, linearApply cW cBias⟩

/-- A concrete batch: three nodes, two edges, two graphs. -/
def cBatch : Batch Mat Mat (List Nat × List Nat) (List Nat) :=
  ⟨[[1, 2], [3, 4], [5, 6]], ([0, 1], [1, 2]), [[0, 0]], [0, 0, 1]⟩

/-- The calls `forward` makes before the layer loop: input encoding, the
two edge-embedding calls, and the first message-passing layer. -/
def forwardInitCalls {X A I B H E G P : Type _}
    (m : DeeperGCN X A I B H E G P) : List DGCall :=
  (if m.mol_data then [DGCall.atomEncoder] else [DGCall.nodeFeaturesEncoder])
    ++ [DGCall.edgeAttrInitial, DGCall.globalEmbEdgeAttr] ++ [DGCall.gcn 0]

/-! ## Helper lemmas -/

theorem lookup_eq_none_of_keys (m : List (String × String)) (k : String)
    (h : k ∉ m.map Prod.fst) : List.lookup k m = none := by
  induction m with
  | nil => rfl
  | cons p m ih =>
    simp only [List.map_cons, List.mem_cons, not_or] at h
    simp [List.lookup, beq_eq_false_iff_ne.mpr h.1, ih h.2]

theorem mem_values_of_lookup (m : List (String × String)) (k t : String)
    (h : List.lookup k m = some t) : t ∈ m.map Prod.snd := by
  induction m with
  | nil => simp [List.lookup] at h
  | cons p m ih =>
    rw [List.lookup] at h
    by_cases hk : k == p.1
    · rw [hk] at h
      simp only [Option.some.injEq] at h
      simp [h]
    · simp only [Bool.not_eq_true] at hk
      rw [hk] at h
      simp [ih h]

theorem compose_log_fold (n : Nat) :
    ∀ l : List Nat,
      ((List.range n).map (fun i => fun s => s ++ [i])).foldl (fun d t => t d) l
      = l ++ List.range n := by
  induction n with
  | zero => intro l; simp
  | succ n ih =>
    intro l
    rw [List.range_succ, List.map_append, List.foldl_append, ih]
    simp

/-! ## Claims -/

/-- C10: `ComposeCustom(transforms)(data)` applies each transform exactly
once, in list order, feeding each output into the next transform, and
returns the last output (the input itself for the empty list).  The first
three conjuncts give the sequential-feeding equations; the last runs the
composition on index-logging transforms, whose log comes out as exactly
the list of indices in order. -/
theorem C10_compose_custom_sequential :
    ∀ (α : Type) (t : α → α) (ts : List (α → α)) (d : α),
      (ComposeCustom.call (⟨[]⟩ : ComposeCustom α) d = d) ∧
      (ComposeCustom.call ⟨t :: ts⟩ d = ComposeCustom.call ⟨ts⟩ (t d)) ∧
      (ComposeCustom.call ⟨ts ++ [t]⟩ d = t (ComposeCustom.call ⟨ts⟩ d)) ∧
      (∀ n : Nat,
        ComposeCustom.call ⟨(List.range n).map (fun i => fun s => s ++ [i])⟩
          ([] : List Nat) = List.range n) := by
  intro α t ts d
  refine ⟨rfl, rfl, ?_, ?_⟩
  · simp [ComposeCustom.call, List.foldl_append]
  · intro n
    simpa [ComposeCustom.call] using compose_log_fold n []

/-- C2: `run` raises `NotImplementedError` when `add_rdkit_dist` is
truthy but not one of the seven supported distance kinds, and when
`model` is neither `'deepergcn'` nor `'smp'`. -/
theorem C2_run_not_implemented_signals :
    (∀ (c : RunConfig) (kind : String), c.add_rdkit_dist = some kind →
        kind ≠ "" → kind ∉ rdkit_dist_kinds →
        run_build_transforms c = .error RunError.notImplemented) ∧
    (∀ c : RunConfig, c.model ≠ "deepergcn" → c.model ≠ "smp" →
        run_select_model c = .error RunError.notImplemented) := by
  constructor
  · intro c kind hk hne hnotin
    have hlk : List.lookup kind rdkit_dist_mapping = none :=
      lookup_eq_none_of_keys _ _ hnotin
    unfold run_build_transforms run_transforms_head
    rw [hk]
    simp [hne, hlk]
  · intro c h1 h2
    unfold run_select_model
    simp [h1, h2]

/-- C2 witness: a concrete configuration with `add_rdkit_dist='foo'` and
`model='dimenet'` hits both `NotImplementedError` raises. -/
theorem C2_witness_concrete_config :
    run_build_transforms badCfg = .error RunError.notImplemented ∧
    run_select_model badCfg = .error RunError.notImplemented :=
  ⟨C2_run_not_implemented_signals.1 badCfg "foo" rfl (by decide) (by decide),
   C2_run_not_implemented_signals.2 badCfg (by decide) (by decide)⟩

/-- C3: the `DeeperGCN(...)` call in `run` (non-linegraph branch) cannot
bind against `DeeperGCN.__init__`: binding raises a `TypeError` (the
first keyword scanned, `node_feat_dim`, is already bound by the 18
positional arguments), and the keyword arguments `code_data`,
`node_encoder`, `emb_product`, `emb_use_both`, `deg_hist` as well as the
positionally passed config values `block`, `add_virtual_node`, `conv`
name no parameter of `DeeperGCN.__init__` at all. -/
theorem C3_deepergcn_call_binding_type_error :
    run_DeeperGCN_call_binding = .error (PyCallError.multipleValues "node_feat_dim") ∧
    "code_data" ∉ DeeperGCN_init_params ∧
    "node_encoder" ∉ DeeperGCN_init_params ∧
    "emb_product" ∉ DeeperGCN_init_params ∧
    "emb_use_both" ∉ DeeperGCN_init_params ∧
    "deg_hist" ∉ DeeperGCN_init_params ∧
    "block" ∉ DeeperGCN_init_params ∧
    "add_virtual_node" ∉ DeeperGCN_init_params ∧
    "conv" ∉ DeeperGCN_init_params := by
  refine ⟨rfl, ?_, ?_, ?_, ?_, ?_, ?_, ?_, ?_⟩ <;> decide

/-- C6: `DeeperGCN.__init__` binds `self.pool` to global add / mean / max
pooling for `graph_pooling` in `'sum'`, `'mean'`, `'max'`, and raises
`KeyError` for every other value. -/
theorem C6_graph_pooling_modes :
    DeeperGCN_select_pool "sum" = .ok global_add_pool ∧
    DeeperGCN_select_pool "mean" = .ok global_mean_pool ∧
    DeeperGCN_select_pool "max" = .ok global_max_pool ∧
    ∀ s : String, s ≠ "sum" → s ≠ "mean" → s ≠ "max" →
      DeeperGCN_select_pool s = .error (InitError.keyError s) := by
  refine ⟨rfl, rfl, rfl, ?_⟩
  intro s h1 h2 h3
  unfold DeeperGCN_select_pool
  simp [h1, h2, h3]

/-- C6 witness: `graph_pooling='attention'` raises `KeyError`. -/
theorem C6_witness_unsupported_pooling :
    DeeperGCN_select_pool "attention" = .error (InitError.keyError "attention") :=
  C6_graph_pooling_modes.2.2.2 "attention" (by decide) (by decide) (by decide)

theorem graphBincount_length (g : GraphData) (bc : List Nat)
    (h : graphBincount g = some bc) : bc.length = 10 := by
  cases hd : graph_deg g with
  | error e => simp [graphBincount, hd] at h
  | ok d =>
    simp only [graphBincount, hd] at h
    by_cases hlen : (bincount d 10).length = 10
    · simp only [hlen, if_true] at h
      cases h
      exact hlen
    · simp [hlen] at h

theorem accumGraph_eq (deg : List Nat) (g : GraphData) (h10 : deg.length = 10) :
    accumGraph 10 deg g =
      (match graphBincount g with
       | some bc => Except.ok (List.zipWith (· + ·) deg bc)
       | none => Except.error ()) := by
  cases hd : graph_deg g with
  | error e => simp [accumGraph, graphBincount, hd]
  | ok d =>
    simp only [accumGraph, graphBincount, hd, h10]
    by_cases hlen : (bincount d 10).length = 10
    · simp [hlen]
    · simp [hlen]

theorem deg_hist_fold (l : List GraphData) :
    ∀ (deg : List Nat) (log : List String), deg.length = 10 →
      l.foldl
        (fun s data =>
          match accumGraph 10 s.1 data with
          | .ok d2 => (d2, s.2)
          | .error _ => (s.1, s.2 ++ [invalidGraphMsg])) (deg, log)
      = ((l.filterMap graphBincount).foldl
           (fun a b => List.zipWith (· + ·) a b) deg,
         log ++ (l.filter (fun g => (graphBincount g).isNone)).map
                  (fun _ => invalidGraphMsg)) := by
  induction l with
  | nil => intro deg log h; simp
  | cons g l ih =>
    intro deg log h
    simp only [List.foldl_cons, List.filterMap_cons, List.filter_cons]
    rw [accumGraph_eq deg g h]
    cases hb : graphBincount g with
    | none =>
      simp only [hb]
      rw [ih deg (log ++ [invalidGraphMsg]) h]
      simp
    | some bc =>
      have hbl : bc.length = 10 := graphBincount_length g bc hb
      simp only [hb]
      rw [ih (List.zipWith (· + ·) deg bc) log
            (by simp [List.length_zipWith, h, hbl])]
      simp

theorem get_deg_hist_run_eq (l : List GraphData) :
    get_deg_hist_run l =
      ((l.filterMap graphBincount).foldl
         (fun a b => List.zipWith (· + ·) a b) (List.replicate 10 0),
       (l.filter (fun g => (graphBincount g).isNone)).map
         (fun _ => invalidGraphMsg)) := by
  have h := deg_hist_fold l (List.replicate 10 0) [] (by simp)
  unfold get_deg_hist_run
  simpa using h

theorem base_le_foldl_max (d : List Nat) : ∀ a : Nat, a ≤ d.foldl max a := by
  induction d with
  | nil => intro a; exact le_refl a
  | cons x d ih => intro a; exact le_trans (le_max_left a x) (ih (max a x))

theorem le_foldl_max (d : List Nat) : ∀ a : Nat, ∀ v ∈ d, v ≤ d.foldl max a := by
  induction d with
  | nil => simp
  | cons x d ih =>
    intro a v hv
    simp only [List.foldl_cons]
    rcases List.mem_cons.mp hv with h | h
    · subst h
      exact le_trans (le_max_right a v) (base_le_foldl_max d (max a v))
    · exact ih (max a x) v h

theorem bincount_length_gt (d : List Nat) (v : Nat) (hv : v ∈ d)
    (h10 : 10 ≤ v) : 10 < (bincount d 10).length := by
  cases d with
  | nil => simp at hv
  | cons x d =>
    have hle : v ≤ (x :: d).foldl max 0 := le_foldl_max (x :: d) 0 v hv
    simp only [bincount, List.length_map, List.length_range]
    have hmax := le_max_right 10 ((x :: d).foldl max 0 + 1)
    omega

theorem foldl_zipAdd_length (bcs : List (List Nat)) :
    ∀ deg : List Nat, deg.length = 10 → (∀ bc ∈ bcs, bc.length = 10) →
      (bcs.foldl (fun a b => List.zipWith (· + ·) a b) deg).length = 10 := by
  induction bcs with
  | nil => intro deg h _; simpa using h
  | cons bc bcs ih =>
    intro deg h hall
    simp only [List.foldl_cons]
    exact ih _ (by simp [List.length_zipWith, h, hall bc (by simp)])
      (fun b hb => hall b (by simp [hb]))

/-- C1: `get_deg_hist` is best-effort and total: every graph whose degree
computation or histogram accumulation fails is skipped and contributes one
printed warning, and the returned histogram is the accumulated bincount of
exactly the remaining graphs. -/
theorem C1_get_deg_hist_best_effort :
    ∀ l : List GraphData,
      get_deg_hist_run l =
        ((l.filterMap graphBincount).foldl
           (fun a b => List.zipWith (· + ·) a b) (List.replicate 10 0),
         (l.filter (fun g => (graphBincount g).isNone)).map
           (fun _ => invalidGraphMsg)) :=
  fun l => get_deg_hist_run_eq l

/-- C7: the histogram always has exactly 10 entries, and a graph whose
degree vector contains a value of 10 or more produces a bincount longer
than the accumulator, so its accumulation fails: the graph is skipped
(with a warning) and contributes nothing to the histogram. -/
theorem C7_deg_hist_ten_entries_and_overflow_skip :
    (∀ l : List GraphData, (get_deg_hist l).length = 10) ∧
    (∀ (g : GraphData) (d : List Nat), graph_deg g = .ok d →
      (∃ v ∈ d, 10 ≤ v) →
      10 < (bincount d 10).length ∧ graphBincount g = none ∧
      ∀ l1 l2 : List GraphData,
        get_deg_hist (l1 ++ g :: l2) = get_deg_hist (l1 ++ l2) ∧
        (get_deg_hist_run (l1 ++ g :: l2)).2.length
          = (get_deg_hist_run (l1 ++ l2)).2.length + 1) := by
  constructor
  · intro l
    unfold get_deg_hist
    rw [get_deg_hist_run_eq]
    exact foldl_zipAdd_length _ _ (by simp)
      (fun bc hbc => by
        rcases List.mem_filterMap.mp hbc with ⟨g, _, hg⟩
        exact graphBincount_length g bc hg)
  · rintro g d hd ⟨v, hv, h10v⟩
    have hbl := bincount_length_gt d v hv h10v
    have hnone : graphBincount g = none := by
      simp only [graphBincount, hd]
      simp [show ¬(bincount d 10).length = 10 by omega]
    refine ⟨hbl, hnone, ?_⟩
    intro l1 l2
    constructor
    · unfold get_deg_hist
      rw [get_deg_hist_run_eq, get_deg_hist_run_eq]
      simp [List.filterMap_append, List.filterMap_cons, hnone]
    · rw [get_deg_hist_run_eq, get_deg_hist_run_eq]
      simp [List.filter_append, List.filter_cons, hnone]
      omega

/-- C7 witness: a single-node graph with ten in-edges has degree vector
`[10]`, is skipped, and adds one warning. -/
theorem C7_witness_indegree_ten_graph :
    graph_deg badGraph = .ok [10] ∧
    get_deg_hist [badGraph] = get_deg_hist [] ∧
    (get_deg_hist_run [badGraph]).2.length
      = (get_deg_hist_run []).2.length + 1 := by
  have h := C7_deg_hist_ten_entries_and_overflow_skip.2 badGraph [10] (by rfl)
      ⟨10, by simp, Nat.le_refl 10⟩
  exact ⟨by rfl, (h.2.2 [] []).1, (h.2.2 [] []).2⟩

theorem mol_transforms_count_lg (c : RunConfig) :
    (mol_transforms c).count "Set_Linegraph_NodeAttr_Distance" = 0 := by
  unfold mol_transforms
  split
  · decide
  split
  · decide
  split
  · decide
  · decide

theorem mol_transforms_count_ge (c : RunConfig) :
    (mol_transforms c).count "Set_Graph_EdgeAttr_Distance" = 0 := by
  unfold mol_transforms
  split
  · decide
  split
  · decide
  split
  · decide
  · decide

theorem rdkit_value_ne (t : String)
    (ht : t ∈ rdkit_dist_mapping.map Prod.snd) :
    t ≠ "Set_Linegraph_NodeAttr_Distance" ∧
    t ≠ "Set_Graph_EdgeAttr_Distance" := by
  simp only [rdkit_dist_mapping, List.map_cons, List.map_nil,
    List.mem_cons, List.not_mem_nil, or_false] at ht
  rcases ht with rfl | rfl | rfl | rfl | rfl | rfl | rfl <;>
    exact ⟨by decide, by decide⟩

theorem head_ok_counts (c : RunConfig) (base : List String)
    (h : run_transforms_head c = .ok base) :
    base.count "Set_Linegraph_NodeAttr_Distance" = 0 ∧
    base.count "Set_Graph_EdgeAttr_Distance" = 0 := by
  unfold run_transforms_head at h
  cases hrd : c.add_rdkit_dist with
  | none =>
    rw [hrd] at h
    simp only [Except.ok.injEq] at h
    subst h
    cases hp : c.add_ppr_dist <;> simp [hp]
  | some kind =>
    rw [hrd] at h
    by_cases hk : kind = ""
    · simp only [hk, if_true] at h
      simp only [Except.ok.injEq] at h
      subst h
      cases hp : c.add_ppr_dist <;> simp [hp]
    · simp only [hk, if_false] at h
      cases hlk : List.lookup kind rdkit_dist_mapping with
      | none => rw [hlk] at h; simp at h
      | some t =>
        rw [hlk] at h
        simp only [Except.ok.injEq] at h
        subst h
        have hv := rdkit_value_ne t (mem_values_of_lookup _ _ _ hlk)
        constructor <;>
          cases hp : c.add_ppr_dist <;>
            simp [hp, List.count_append, mol_transforms_count_lg,
              mol_transforms_count_ge, List.count_cons, hv.1, hv.2]

/-- C9: whenever distance features are enabled, the pipeline places the
distance in exactly one location: with `linegraph_dist` on, exactly one
`Set_Linegraph_NodeAttr_Distance` (directly after `Add_Linegraph`) and no
`Set_Graph_EdgeAttr_Distance`; with it off, exactly one
`Set_Graph_EdgeAttr_Distance` and no line-graph distance transform. -/
theorem C9_distance_single_placement :
    ∀ (c : RunConfig) (ts : List String),
      run_build_transforms c = .ok ts → distance_enabled c = true →
      (c.linegraph_dist = true →
        ts.count "Set_Linegraph_NodeAttr_Distance" = 1 ∧
        ts.count "Set_Graph_EdgeAttr_Distance" = 0 ∧
        ∃ p q, ts = p ++ "Add_Linegraph" ::
                      "Set_Linegraph_NodeAttr_Distance" :: q) ∧
      (c.linegraph_dist = false →
        ts.count "Set_Graph_EdgeAttr_Distance" = 1 ∧
        ts.count "Set_Linegraph_NodeAttr_Distance" = 0) := by
  intro c ts h hdist
  unfold run_build_transforms at h
  cases hh : run_transforms_head c with
  | error e => rw [hh] at h; simp at h
  | ok base =>
    rw [hh] at h
    simp only [Except.ok.injEq] at h
    subst h
    obtain ⟨hb1, hb2⟩ := head_ok_counts c base hh
    unfold run_transforms_tail
    constructor
    · intro hlg
      refine ⟨?_, ?_, ?_⟩
      · cases hla : c.linegraph_angle <;> by_cases hq : c.dataset_name = "QM9" <;>
          simp [hdist, hlg, hla, hq, List.count_append, List.count_cons,
            List.count_nil, hb1]
      · cases hla : c.linegraph_angle <;> by_cases hq : c.dataset_name = "QM9" <;>
          simp [hdist, hlg, hla, hq, List.count_append, List.count_cons,
            List.count_nil, hb2]
      · refine ⟨base ++ ["Finalize_Dist_Basis"],
          ((if c.linegraph_angle = true then ["Set_Linegraph_EdgeAttr_Angle"]
            else ["Set_Linegraph_EdgeAttr"]) ++ ["Remove_Distances"]) ++
          (if c.dataset_name = "QM9" then ["RemoveTargets"] else []), ?_⟩
        cases hla : c.linegraph_angle <;> by_cases hq : c.dataset_name = "QM9" <;>
          simp [hdist, hlg, hla, hq]
    · intro hlg
      constructor <;>
        · by_cases hq : c.dataset_name = "QM9" <;>
            simp [hdist, hlg, hq, List.count_append, List.count_cons,
              List.count_nil, hb1, hb2]

/-- C9 witness: concrete PPR-distance configurations, one with the
line-graph placement and one with the edge-attribute placement. -/
theorem C9_witness_concrete_configs :
    (∃ p q, ["Set_PPR_Distance", "Finalize_Dist_Basis", "Add_Linegraph",
       "Set_Linegraph_NodeAttr_Distance", "Set_Linegraph_EdgeAttr",
       "Remove_Distances"]
       = p ++ "Add_Linegraph" :: "Set_Linegraph_NodeAttr_Distance" :: q) ∧
    ["Set_PPR_Distance", "Finalize_Dist_Basis", "Set_Graph_EdgeAttr_Distance",
     "Remove_Distances"].count "Set_Graph_EdgeAttr_Distance" = 1 := by
  have h1 := C9_distance_single_placement lgCfg
    ["Set_PPR_Distance", "Finalize_Dist_Basis", "Add_Linegraph",
     "Set_Linegraph_NodeAttr_Distance", "Set_Linegraph_EdgeAttr",
     "Remove_Distances"] (by rfl) (by rfl)
  have h2 := C9_distance_single_placement geCfg
    ["Set_PPR_Distance", "Finalize_Dist_Basis", "Set_Graph_EdgeAttr_Distance",
     "Remove_Distances"] (by rfl) (by rfl)
  exact ⟨(h1.1 (by rfl)).2.2, (h2.2 (by rfl)).1⟩

theorem forwardT_fst (m : DeeperGCN X A I B H E G P) (b : Batch X A I B) :
    (m.forwardT b).1 = m.graph_pred_linear (m.pool (m.dropout
      (m.norms (m.num_layers - 1)
        ((m.forwardLoop b.edge_index (m.edgeEmb b)
          (m.runningRep b 0, forwardInitCalls m) (m.num_layers - 1)).1)))
      b.batch) := rfl

theorem forwardCalls_eq (m : DeeperGCN X A I B H E G P) (b : Batch X A I B) :
    m.forwardCalls b =
      ((m.forwardLoop b.edge_index (m.edgeEmb b)
          (m.runningRep b 0, forwardInitCalls m) (m.num_layers - 1)).2
        ++ [DGCall.norm (m.num_layers - 1), DGCall.dropout])
      ++ [DGCall.pool, DGCall.predLinear] := rfl

theorem forwardLoop_fst (m : DeeperGCN X A I B H E G P) (b : Batch X A I B) :
    ∀ (n : Nat) (l : List DGCall),
      (m.forwardLoop b.edge_index (m.edgeEmb b)
        (m.runningRep b 0, l) n).1 = m.runningRep b n := by
  intro n
  induction n with
  | zero => intro l; rfl
  | succ n ih =>
    intro l
    simp only [DeeperGCN.forwardLoop, DeeperGCN.layerStep]
    rw [ih l]
    rfl

theorem forwardLoop_count (m : DeeperGCN X A I B H E G P) (ei : I) (ee : E)
    (i : Nat) :
    ∀ (n : Nat) (s : H × List DGCall),
      ((m.forwardLoop ei ee s n).2).count (DGCall.norm i)
        = s.2.count (DGCall.norm i) + (if i < n then 1 else 0) := by
  intro n
  induction n with
  | zero => intro s; simp [DeeperGCN.forwardLoop]
  | succ n ih =>
    intro s
    simp only [DeeperGCN.forwardLoop, DeeperGCN.layerStep]
    rw [List.count_append, ih s]
    rcases Nat.lt_trichotomy i n with h | rfl | h
    · have h1 : i < n + 1 := by omega
      have h2 : ¬ (n = i) := by omega
      simp [h, h1, h2, List.count_cons]
    · simp [Nat.lt_irrefl, Nat.lt_succ_self, List.count_cons]
    · have h1 : ¬ (i < n) := by omega
      have h2 : ¬ (i < n + 1) := by omega
      have h3 : ¬ (n = i) := by omega
      simp [h1, h2, h3, List.count_cons]

theorem forwardInitCalls_count (m : DeeperGCN X A I B H E G P) (i : Nat) :
    (forwardInitCalls m).count (DGCall.norm i) = 0 := by
  unfold forwardInitCalls
  cases m.mol_data <;> simp

/-- C4: `forward` applies layer 0 directly to the encoded input; each
subsequent layer is applied to the normalized, rectified, dropped-out
running representation and added back as a residual; the last
normalization layer is applied after the loop; and every one of the
`num_layers` normalization layers is called exactly once per forward
pass (a norm index outside the stack is never called). -/
theorem C4_forward_layer_structure :
    ∀ (m : DeeperGCN X A I B H E G P) (b : Batch X A I B),
      1 ≤ m.num_layers →
      m.forward b = m.graph_pred_linear (m.pool (m.dropout
          (m.norms (m.num_layers - 1) (m.runningRep b (m.num_layers - 1))))
          b.batch) ∧
      ∀ i : Nat, (m.forwardCalls b).count (DGCall.norm i)
        = if i < m.num_layers then 1 else 0 := by
  intro m b hL
  constructor
  · unfold DeeperGCN.forward
    rw [forwardT_fst m b, forwardLoop_fst m b (m.num_layers - 1) (forwardInitCalls m)]
  · intro i
    rw [forwardCalls_eq m b, List.count_append, List.count_append,
      forwardLoop_count m b.edge_index (m.edgeEmb b) i (m.num_layers - 1)
        (m.runningRep b 0, forwardInitCalls m)]
    have h0 : (m.runningRep b 0, forwardInitCalls m).2.count (DGCall.norm i) = 0 :=
      forwardInitCalls_count m i
    rw [h0]
    rcases Nat.lt_trichotomy i (m.num_layers - 1) with h | rfl | h
    · have h1 : i < m.num_layers := by omega
      have h2 : ¬ (m.num_layers - 1 = i) := by omega
      simp [h, h1, h2, List.count_cons]
    · have h1 : m.num_layers - 1 < m.num_layers := by omega
      simp [Nat.lt_irrefl, h1, List.count_cons]
    · have h1 : ¬ (i < m.num_layers) := by omega
      have h2 : ¬ (m.num_layers - 1 = i) := by omega
      have h3 : ¬ (i < m.num_layers - 1) := by omega
      simp [h1, h2, h3, List.count_cons]

/-- C4 witness: the concrete two-layer model on the concrete batch. -/
theorem C4_witness_concrete_model :
    cModel.forward cBatch = cModel.graph_pred_linear (cModel.pool
      (cModel.dropout (cModel.norms (cModel.num_layers - 1)
        (cModel.runningRep cBatch (cModel.num_layers - 1)))) cBatch.batch) ∧
    (cModel.forwardCalls cBatch).count (DGCall.norm 0) = 1 ∧
    (cModel.forwardCalls cBatch).count (DGCall.norm 1) = 1 ∧
    (cModel.forwardCalls cBatch).count (DGCall.norm 2) = 0 := by
  have h := C4_forward_layer_structure cModel cBatch (by decide)
  refine ⟨h.1, ?_, ?_, ?_⟩
  · rw [h.2 0]; rfl
  · rw [h.2 1]; rfl
  · rw [h.2 2]; rfl

/-- C5: `forward` returns one prediction row per graph: the pooled
representation has `batch.max() + 1` rows whatever the node features are,
and the prediction head maps each pooled row to a row of `num_tasks`
entries. -/
theorem C5_forward_output_shape :
    ∀ (m : DeeperGCN Mat Mat (List Nat × List Nat) (List Nat) Mat Mat Mat Mat)
      (b : Batch Mat Mat (List Nat × List Nat) (List Nat)) (W : Mat)
      (bias : List ℚ) (num_tasks : Nat),
      (m.pool = global_add_pool ∨ m.pool = global_mean_pool ∨
        m.pool = global_max_pool) →
      m.graph_pred_linear = linearApply W bias →
      W.length = num_tasks → bias.length = num_tasks →
      (m.forward b).length = pygNumGraphs b.batch ∧
      ∀ row ∈ m.forward b, row.length = num_tasks := by
  intro m b W bias nt hpool hlin hW hb
  unfold DeeperGCN.forward
  rw [forwardT_fst m b, hlin]
  have hpl : ∀ x : Mat, (m.pool x b.batch).length = pygNumGraphs b.batch := by
    rcases hpool with hp | hp | hp <;> rw [hp] <;> intro x <;>
      simp [global_add_pool, global_mean_pool, global_max_pool]
  constructor
  · simp [linearApply, hpl]
  · intro row hrow
    simp only [linearApply, List.mem_map] at hrow
    rcases hrow with ⟨r, _, rfl⟩
    simp [List.length_zipWith, hW, hb]

/-- C5 witness: the concrete model (sum pooling, 3-task head) on the
concrete two-graph batch gives 2 rows of 3 entries. -/
theorem C5_witness_concrete_model :
    (cModel.forward cBatch).length = 2 ∧
    ∀ row ∈ cModel.forward cBatch, row.length = 3 :=
  C5_forward_output_shape cModel cBatch cW cBias 3 (Or.inl rfl) rfl rfl rfl

/-- C8: `forward` consumes the batch read-only: threading the batch
object through the statement-by-statement translation of the method
returns every field unchanged. -/
theorem C8_forward_batch_read_only :
    ∀ (m : DeeperGCN X A I B H E G P) (b : Batch X A I B),
      (m.forwardBatch b).x = b.x ∧
      (m.forwardBatch b).edge_index = b.edge_index ∧
      (m.forwardBatch b).edge_attr = b.edge_attr ∧
      (m.forwardBatch b).batch = b.batch :=
  fun _ _ => ⟨rfl, rfl, rfl, rfl⟩
